import Mathlib

/-!
Shallow embedding of the dungeon-master skeleton (src/src/main.py and
src/src/models/character.py).

Python values that cross the serialization boundary are modelled by the
JSON-like type `PyVal`; dictionaries are association lists that keep the
insertion order, matching Python dict / `dataclasses.asdict` behaviour.
Fallible Python code (raising KeyError / TypeError / ValueError / IndexError)
is modelled with `Option` / explicit error sums.  The pseudo-random generator
of `random.Random` is opaque to the repository; it is modelled by a `Nat`
state advanced by a concrete linear congruential step, which realises the
contract the code relies on: deterministic, value in `[lo, hi]`, and
`getstate`/`setstate` round-tripping exactly.
-/

/-- A Python value as it appears in serialized game data (JSON-like). -/
inductive PyVal : Type where
  | str : String → PyVal
  | int : Int → PyVal
  | list : List PyVal → PyVal
  | dict : List (String × PyVal) → PyVal

/-- Lookup of a key in a Python dict (association list, first match). -/
def dlookup (k : String) : List (String × PyVal) → Option PyVal
  | [] => none
  | kv :: tl => if kv.1 = k then some kv.2 else dlookup k tl

/-- Read a required string entry (Python raising access `data[k]`). -/
def getStr (kvs : List (String × PyVal)) (k : String) : Option String :=
  match dlookup k kvs with
  | some (PyVal.str s) => some s
  | _ => none

/-- Read an integer entry, with a dataclass default when the key is absent. -/
def getInt (kvs : List (String × PyVal)) (k : String) (dflt : Int) : Option Int :=
  match dlookup k kvs with
  | none => some dflt
  | some (PyVal.int i) => some i
  | some _ => none

/-- Map a parse over every element, failing if any element fails (the Python
generator expression inside a constructor raises at the first bad element). -/
def parseAll {α : Type} (g : PyVal → Option α) : List PyVal → Option (List α)
  | [] => some []
  | v :: tl =>
    match g v, parseAll g tl with
    | some a, some l => some (a :: l)
    | _, _ => none

/-- Parse a list of strings (e.g. a `monsters` or `items` entry). -/
def parseStrList (l : List PyVal) : Option (List String) :=
  parseAll (fun v => match v with | PyVal.str s => some s | _ => none) l

/-- Parse a string-to-string dict (a Scene's `choices` mapping). -/
def parseStrDict : List (String × PyVal) → Option (List (String × String))
  | [] => some []
  | kv :: tl =>
    match kv.2, parseStrDict tl with
    | PyVal.str s, some l => some ((kv.1, s) :: l)
    | _, _ => none

/-- Stats dataclass of core/character.py (six ability scores, default 10). -/
structure Stats where
  str : Int
  dex : Int
  con : Int
  int : Int
  wis : Int
  cha : Int
deriving DecidableEq

/-- The default `Stats()` object (every score 10). -/
def Stats.default : Stats := ⟨10, 10, 10, 10, 10, 10⟩

/-- Ability modifier `(score - 10) // 2`; Python `//` is floor division,
which `Int.fdiv` implements. -/
def Stats.modifier (_self : Stats) (score : Int) : Int :=
  Int.fdiv (score - 10) 2

/-- Serialization of `Stats` as `dataclasses.asdict` produces it. -/
def Stats.to_dict (s : Stats) : PyVal :=
  PyVal.dict [("str", PyVal.int s.str), ("dex", PyVal.int s.dex),
    ("con", PyVal.int s.con), ("int", PyVal.int s.int),
    ("wis", PyVal.int s.wis), ("cha", PyVal.int s.cha)]

/-- Reconstruction of a `Stats` from its dict form.  Python's `Stats(**d)`
accepts any subset of the field names (missing fields take their default 10)
and rejects unknown keys; it stores the values unchecked, so we model the
well-typed case, which is observably identical through `asdict` for every
dict produced by `to_dict`. -/
def Stats.from_dict (v : PyVal) : Option Stats :=
  match v with
  | PyVal.dict kvs =>
    if kvs.all (fun kv => ["str", "dex", "con", "int", "wis", "cha"].contains kv.1) then do
      let a ← getInt kvs "str" 10
      let b ← getInt kvs "dex" 10
      let c ← getInt kvs "con" 10
      let d ← getInt kvs "int" 10
      let e ← getInt kvs "wis" 10
      let f ← getInt kvs "cha" 10
      some ⟨a, b, c, d, e, f⟩
    else none
  | _ => none

/-- Inventory dataclass: item identifiers plus a gold count (default 0). -/
structure Inventory where
  items : List String
  gold : Int
deriving DecidableEq

/-- Serialization of `Inventory` as `asdict` produces it. -/
def Inventory.to_dict (i : Inventory) : PyVal :=
  PyVal.dict [("items", PyVal.list (i.items.map PyVal.str)), ("gold", PyVal.int i.gold)]

/-- Reconstruction of an `Inventory` from its dict form (`Inventory(**d)`:
`items` required, `gold` defaults to 0, unknown keys rejected). -/
def Inventory.from_dict (v : PyVal) : Option Inventory :=
  match v with
  | PyVal.dict kvs =>
    if kvs.all (fun kv => ["items", "gold"].contains kv.1) then do
      let its ← (match dlookup "items" kvs with
        | some (PyVal.list l) => parseStrList l
        | _ => none)
      let g ← getInt kvs "gold" 0
      some ⟨its, g⟩
    else none
  | _ => none

/-- Character dataclass of core/character.py. -/
structure Character where
  name : String
  stats : Stats
  hp : Int
  xp : Int
  inventory : Inventory
deriving DecidableEq

/-- Serialization of a `Character` (`asdict`, recursing into the nested
dataclasses, keys in field order). -/
def Character.to_dict (c : Character) : PyVal :=
  PyVal.dict [("name", PyVal.str c.name), ("stats", Stats.to_dict c.stats),
    ("hp", PyVal.int c.hp), ("xp", PyVal.int c.xp),
    ("inventory", Inventory.to_dict c.inventory)]

/-- Reconstruction of a `Character` from its dict form.  Python's
`Character(**data)` requires `name`, fills absent fields with the dataclass
defaults (`Stats()`, hp 10, xp 0, `Inventory([])`), rejects unknown keys, and
stores nested dicts unparsed; every observation in the repository goes
through `asdict`, under which the stored dict and the parsed value shown
here are identical, so we model the parsed form. -/
def Character.from_dict (v : PyVal) : Option Character :=
  match v with
  | PyVal.dict kvs =>
    if kvs.all (fun kv => ["name", "stats", "hp", "xp", "inventory"].contains kv.1) then do
      let n ← getStr kvs "name"
      let st ← (match dlookup "stats" kvs with
        | none => some Stats.default
        | some sv => Stats.from_dict sv)
      let hp ← getInt kvs "hp" 10
      let xp ← getInt kvs "xp" 0
      let inv ← (match dlookup "inventory" kvs with
        | none => some (Inventory.mk [] 0)
        | some iv => Inventory.from_dict iv)
      some ⟨n, st, hp, xp, inv⟩
    else none
  | _ => none

/-- Party is a list subclass holding the characters. -/
abbrev Party := List Character

/-- Party-wide predicate: at least one member with positive hit points. -/
def Party.any_alive (p : Party) : Bool :=
  p.any (fun c => decide (0 < c.hp))

/-- Serialization of a `Party`: a dict with the single key `members`. -/
def Party.to_dict (p : Party) : PyVal :=
  PyVal.dict [("members", PyVal.list (p.map Character.to_dict))]

/-- Reconstruction of a `Party`: reads `data["members"]` (KeyError when the
key is absent, hence `none`) and rebuilds each member. -/
def Party.from_dict (v : PyVal) : Option Party :=
  match v with
  | PyVal.dict kvs =>
    match dlookup "members" kvs with
    | some (PyVal.list ms) => parseAll Character.from_dict ms
    | _ => none
  | _ => none

/-- Scene of content/story_setup.py: id, narrative text, monster list and a
choice-key to next-scene-id mapping.  `Scene.enter` only prints the text, so
it is state-irrelevant in this model. -/
structure Scene where
  id : String
  text : String
  monsters : List String
  choices : List (String × String)
deriving DecidableEq

/-- Serialization of a `Scene` (`asdict`). -/
def Scene.to_dict (s : Scene) : PyVal :=
  PyVal.dict [("id", PyVal.str s.id), ("text", PyVal.str s.text),
    ("monsters", PyVal.list (s.monsters.map PyVal.str)),
    ("choices", PyVal.dict (s.choices.map (fun kv => (kv.1, PyVal.str kv.2))))]

/-- Reconstruction of a `Scene` (`Scene(**s)`): `id` and `text` required,
`monsters` defaults to the empty list, `choices` to the empty mapping,
unknown keys rejected. -/
def Scene.from_dict (v : PyVal) : Option Scene :=
  match v with
  | PyVal.dict kvs =>
    if kvs.all (fun kv => ["id", "text", "monsters", "choices"].contains kv.1) then do
      let i ← getStr kvs "id"
      let t ← getStr kvs "text"
      let ms ← (match dlookup "monsters" kvs with
        | none => some []
        | some (PyVal.list l) => parseStrList l
        | some _ => none)
      let cs ← (match dlookup "choices" kvs with
        | none => some []
        | some (PyVal.dict l) => parseStrDict l
        | some _ => none)
      some ⟨i, t, ms, cs⟩
    else none
  | _ => none

/-- StorySetup: the ordered scene list loaded from content. -/
structure StorySetup where
  scenes : List Scene
deriving DecidableEq

/-- Serialization of a `StorySetup` (`asdict`). -/
def StorySetup.to_dict (st : StorySetup) : PyVal :=
  PyVal.dict [("scenes", PyVal.list (st.scenes.map Scene.to_dict))]

/-- Reconstruction of a `StorySetup`: reads `data["scenes"]` (KeyError when
absent) and rebuilds each scene; other top-level keys are ignored, exactly
as the Python code only subscripts `data["scenes"]`. -/
def StorySetup.from_dict (v : PyVal) : Option StorySetup :=
  match v with
  | PyVal.dict kvs =>
    match dlookup "scenes" kvs with
    | some (PyVal.list l) => (parseAll Scene.from_dict l).map StorySetup.mk
    | _ => none
  | _ => none

/-- One step of the modelled pseudo-random generator (a 64-bit linear
congruential step standing in for the opaque `random.Random` stream). -/
def lcgNext (s : Nat) : Nat :=
  (6364136223846793005 * s + 1442695040888963407) % (2 ^ 64)

/-- Model of `random.Random.randint(lo, hi)`: raises (hence `none`) on an
empty range before touching the generator, otherwise yields a value in
`[lo, hi]` and the advanced state. -/
def randint (s : Nat) (lo hi : Int) : Option (Int × Nat) :=
  if hi < lo then none
  else some (lo + ((s % (hi - lo + 1).toNat : Nat) : Int), lcgNext s)

/-- The list comprehension `[rng.randint(1, sides) for _ in range(num)]`:
`num` sequential draws threading the generator state. -/
def rollN : Nat → Int → Nat → Option (List Int × Nat)
  | 0, _, s => some ([], s)
  | Nat.succ n, sides, s =>
    match randint s 1 sides with
    | none => none
    | some (v, s') =>
      match rollN n sides s' with
      | none => none
      | some (vs, s'') => some (v :: vs, s'')

/-- Character predicate for an ASCII decimal digit.  (The Python regex
`\d` also admits other Unicode decimal digits; no behaviour relevant to the
claims depends on that wider class.) -/
def isDig (c : Char) : Bool :=
  decide ('0' ≤ c) && decide (c ≤ '9')

/-- Decimal value of a digit string. -/
def digitsToNat (ds : List Char) : Nat :=
  ds.foldl (fun acc c => 10 * acc + (c.toNat - 48)) 0

/-- Embedding of `_roll_re.fullmatch` plus the `int(...)` conversions: the
regex `(\d+)d(\d+)([+-]\d+)?` matched against the whole string, yielding
(count, sides, signed modifier).  `fullmatch` with greedy digit groups is
deterministic, so this direct scanner is its exact functional content. -/
def parseDiceCore (cs : List Char) : Option (Nat × Nat × Int) :=
  let s1 := cs.span isDig
  if s1.1.isEmpty then none
  else
    match s1.2 with
    | 'd' :: r2 =>
      let s2 := r2.span isDig
      if s2.1.isEmpty then none
      else
        match s2.2 with
        | [] => some (digitsToNat s1.1, digitsToNat s2.1, 0)
        | c :: r4 =>
          if c = '+' ∨ c = '-' then
            let s3 := r4.span isDig
            if s3.1.isEmpty ∨ ¬ s3.2.isEmpty then none
            else
              some (digitsToNat s1.1, digitsToNat s2.1,
                if c = '+' then (digitsToNat s3.1 : Int)
                else - (digitsToNat s3.1 : Int))
          else none
    | _ => none

/-- Parse a dice expression string. -/
def parseDice (e : String) : Option (Nat × Nat × Int) :=
  parseDiceCore e.data

/-- The two failure modes of `DiceRoller.roll`: the explicit
`ValueError("Invalid dice expression ...")` on a regex mismatch, and the
`ValueError("empty range ...")` raised inside `randint` when `sides` is 0. -/
inductive RollError : Type where
  | invalidExpr : RollError
  | emptyRange : RollError
deriving DecidableEq

/-- `DiceRoller.roll`: parse the expression, draw `num` values, return
`(sum + mod, rolls)`.  The second component is the generator state after the
call; a raised error leaves the generator exactly as it was. -/
def DiceRoller.roll (expr : String) (s : Nat) : Except RollError (Int × List Int) × Nat :=
  match parseDice expr with
  | none => (Except.error RollError.invalidExpr, s)
  | some (n, sides, m) =>
    match rollN n (sides : Int) s with
    | none => (Except.error RollError.emptyRange, s)
    | some (vs, s') => (Except.ok (vs.sum + m, vs), s')

/-- `DiceRoller.get_state`: the opaque generator state, as stored in a
snapshot (an integer in this model). -/
def DiceRoller.get_state (s : Nat) : PyVal :=
  PyVal.int s

/-- `DiceRoller.set_state`: restore a previously captured state; a value of
the wrong shape is rejected (Python's `setstate` raises on it). -/
def DiceRoller.set_state (v : PyVal) : Option Nat :=
  match v with
  | PyVal.int i => if 0 ≤ i then some i.toNat else none
  | _ => none

/-- Failure modes of `DM.play_next`: the explicit
`RuntimeError("DM.start() must be called first.")` and the `IndexError`
raised by the scene-list subscript. -/
inductive PlayError : Type where
  | notStarted : PlayError
  | indexError : PlayError
deriving DecidableEq

/-- The Director.  `ruleset` is always `None` in the source and is omitted;
the dice roller is carried as its generator state. -/
structure DM where
  dice : Nat
  party : Option Party
  story : Option StorySetup
  current_scene_idx : Int
deriving DecidableEq

/-- `DM.__init__(rng_seed)`: fresh director, cursor -1, nothing loaded. -/
def DM.init (seed : Nat) : DM :=
  ⟨seed, none, none, -1⟩

/-- `DM.start`: install the loaded story graph, reset the party to empty,
cursor to 0.  (`StorySetup.load`'s file and YAML handling is outside the
pure domain; `start` here receives the already-loaded graph.) -/
def DM.start (dm : DM) (story : StorySetup) : DM :=
  { dm with story := some story, party := some [], current_scene_idx := 0 }

/-- Python list subscript `xs[i]` with an `int` index: negative indices wrap
from the end, out-of-range indices raise IndexError (`none`). -/
def pyIndex {α : Type} (xs : List α) (i : Int) : Option α :=
  if 0 ≤ i ∧ i < (xs.length : Int) then xs.get? i.toNat
  else if i < 0 ∧ 0 ≤ (xs.length : Int) + i then xs.get? ((xs.length : Int) + i).toNat
  else none

/-- `DM.play_next`: raise NotStarted when story or party is unset; look up
the scene at the cursor (IndexError possible); `scene.enter` only prints;
increment the cursor; call `win_screen` when the new cursor reaches the
scene count.  The boolean payload records whether `win_screen` was invoked.
A raised error leaves the director unchanged (second component). -/
def DM.play_next (dm : DM) : Except PlayError Bool × DM :=
  match dm.story, dm.party with
  | some story, some _party =>
    match pyIndex story.scenes dm.current_scene_idx with
    | none => (Except.error PlayError.indexError, dm)
    | some _scene =>
      let idx := dm.current_scene_idx + 1
      (Except.ok (decide ((story.scenes.length : Int) ≤ idx)),
       { dm with current_scene_idx := idx })
  | _, _ => (Except.error PlayError.notStarted, dm)

/-- Drive `play_next` k times (the CLI loop pressing enter k times),
returning the final director and the number of `win_screen` invocations. -/
def playIter : Nat → DM → DM × Nat
  | 0, dm => (dm, 0)
  | Nat.succ k, dm =>
    let r := dm.play_next
    let rest := playIter k r.2
    (rest.1, (match r.1 with | Except.ok true => 1 | _ => 0) + rest.2)

/-- Game State Snapshot.  All four fields hold raw serialized values; the
Python dataclass does not validate them. -/
structure GameState where
  party : PyVal
  story_state : PyVal
  current_scene_idx : PyVal
  rng_state : PyVal

/-- `GameState.from_dict` is `GameState(**data)`: the argument must be a
dict whose keys are exactly the four field names (all are required, unknown
keys raise TypeError); the values themselves are stored unchecked. -/
def GameState.from_dict (v : PyVal) : Option GameState :=
  match v with
  | PyVal.dict kvs =>
    if kvs.all (fun kv =>
        ["party", "story_state", "current_scene_idx", "rng_state"].contains kv.1) then
      match dlookup "party" kvs, dlookup "story_state" kvs,
          dlookup "current_scene_idx" kvs, dlookup "rng_state" kvs with
      | some p, some s, some i, some r => some ⟨p, s, i, r⟩
      | _, _, _, _ => none
    else none
  | _ => none

/-- `GameState.from_dm`: note the Python conditional expressions
`dm.party.to_dict() if dm.party else {}` test TRUTHINESS, so an empty party
(a falsy list) serializes as the empty dict, exactly like a missing one;
`StorySetup` is a plain dataclass and is always truthy when present. -/
def GameState.from_dm (dm : DM) : GameState :=
  { party := match dm.party with
      | some p => if p.isEmpty then PyVal.dict [] else Party.to_dict p
      | none => PyVal.dict []
  , story_state := match dm.story with
      | some st => StorySetup.to_dict st
      | none => PyVal.dict []
  , current_scene_idx := PyVal.int dm.current_scene_idx
  , rng_state := DiceRoller.get_state dm.dice }

/-- `GameState.apply_to_dm`: rebuild party, story, cursor and generator
state in place.  Any reconstruction failure (KeyError / bad shape) raises,
modelled by `none`.  The restored cursor must be an integer: the Python
assignment stores it unchecked, but the director model tracks the cursor as
an integer and every snapshot built by `from_dm` carries one. -/
def GameState.apply_to_dm (gs : GameState) (dm : DM) : Option DM := do
  let p ← Party.from_dict gs.party
  let st ← StorySetup.from_dict gs.story_state
  let i ← (match gs.current_scene_idx with | PyVal.int i => some i | _ => none)
  let d ← DiceRoller.set_state gs.rng_state
  some { dm with party := some p, story := some st, current_scene_idx := i, dice := d }

/-- `Serializer.load` on an already-parsed JSON document (file reading and
JSON text parsing sit outside the pure domain). -/
def Serializer.load (doc : PyVal) : Option GameState :=
  GameState.from_dict doc

/-- Length of the scene list stored inside a serialized story state. -/
def storyLen (v : PyVal) : Option Nat :=
  match v with
  | PyVal.dict kvs =>
    match dlookup "scenes" kvs with
    | some (PyVal.list l) => some l.length
    | _ => none
  | _ => none

/-- The spec's snapshot invariant, as a decidable check:
`0 <= current_scene_idx <= len(scenes)` of the snapshot's story state. -/
def GameState.cursorInvariant (gs : GameState) : Bool :=
  match gs.current_scene_idx, storyLen gs.story_state with
  | PyVal.int i, some n => decide (0 ≤ i) && decide (i ≤ (n : Int))
  | _, _ => false

/-- The claimed well-formedness of a save document, following the spec's
words: an object carrying the four required snapshot fields and nothing
else. -/
def saveDocWellKeyed (v : PyVal) : Bool :=
  match v with
  | PyVal.dict kvs =>
    (["party", "story_state", "current_scene_idx", "rng_state"].all
        (fun k => (dlookup k kvs).isSome))
      && kvs.all (fun kv =>
        ["party", "story_state", "current_scene_idx", "rng_state"].contains kv.1)
  | _ => false

/-- The grammar claimed by the spec for dice expressions, following its
words: `<count>d<sides>[<+|-><modifier>]` with count and sides POSITIVE
integers.  (The code's regex, embodied in `parseDice`, also accepts zero.) -/
def specDiceGrammar (e : String) : Bool :=
  match parseDice e with
  | some (n, s, _) => decide (0 < n) && decide (0 < s)
  | none => false

/-- Property pack for a successful roll, following the spec's testable
property: the call succeeded, returned exactly `n` individual rolls, each in
`[1, sides]`, and the total is their sum plus the signed modifier. -/
def RollOk (n sides : Nat) (m : Int) (r : Except RollError (Int × List Int)) : Prop :=
  match r with
  | Except.ok tr =>
    tr.2.length = n ∧ (∀ v ∈ tr.2, 1 ≤ v ∧ v ≤ (sides : Int)) ∧ tr.1 = tr.2.sum + m
  | Except.error _ => False

/-- A one-scene demo story graph. -/
def story1 : StorySetup :=
  ⟨[⟨"intro", "You stand before the cave.", [], [("deeper", "room1")]⟩]⟩

/-- A three-scene demo story graph (the goblin_caves campaign shape). -/
def story3 : StorySetup :=
  ⟨[⟨"intro", "cave mouth", [], [("deeper", "room1")]⟩,
    ⟨"room1", "goblins", ["goblin", "goblin"], [("forward", "treasure"), ("flee", "intro")]⟩,
    ⟨"treasure", "coins", [], []⟩]⟩

/-- A director midway through the three-scene demo campaign (cursor 1). -/
def dmMid : DM :=
  { DM.start (DM.init 0) story3 with current_scene_idx := 1 }

/-- A director that has finished the one-scene demo campaign (cursor 1,
equal to the scene count: the Complete state). -/
def dmDone : DM :=
  { DM.start (DM.init 0) story1 with current_scene_idx := 1 }

namespace Models

/-- The six ability scores of models/character.py. -/
inductive Ability : Type where
  | STR : Ability
  | DEX : Ability
  | CON : Ability
  | INT : Ability
  | WIS : Ability
  | CHA : Ability
deriving DecidableEq

/-- Standalone D20 ability modifier: `(score - 10) // 2` (floor division). -/
def ability_modifier (score : Int) : Int :=
  Int.fdiv (score - 10) 2

/-- Character dataclass of models/character.py.  `abilities` is a mapping
with all six abilities present (the dataclass default fills every key);
`proficiency_bonus` is the derived field kept in sync by `__post_init__`
and `_sync_proficiency_bonus`. -/
structure Character where
  name : String
  race : String
  char_class : String
  level : Int
  abilities : Ability → Int
  max_hp : Option Int
  proficiency_bonus : Int

/-- `_sync_proficiency_bonus`: `2 + (level - 1) // 4` (floor division). -/
def Character.sync_proficiency_bonus (c : Character) : Character :=
  { c with proficiency_bonus := 2 + Int.fdiv (c.level - 1) 4 }

/-- Construction through `__post_init__`: `level < 1` raises ValueError,
otherwise the derived proficiency bonus is computed. -/
def Character.mkChecked (name race char_class : String) (level : Int)
    (abilities : Ability → Int) (max_hp : Option Int) : Option Character :=
  if level < 1 then none
  else some (Character.sync_proficiency_bonus
    ⟨name, race, char_class, level, abilities, max_hp, 0⟩)

/-- `Character.ability_mod`: modifier of one ability score. -/
def Character.ability_mod (c : Character) (a : Ability) : Int :=
  ability_modifier (c.abilities a)

/-- `Character.level_up`: increment the level, re-derive the bonus. -/
def Character.level_up (c : Character) : Character :=
  Character.sync_proficiency_bonus { c with level := c.level + 1 }

end Models

/-! Helper lemmas -/

theorem parseAll_map {α : Type} (f : α → PyVal) (g : PyVal → Option α)
    (h : ∀ a, g (f a) = some a) : ∀ l : List α, parseAll g (l.map f) = some l := by
  intro l
  induction l with
  | nil => rfl
  | cons a tl ih => simp [parseAll, h, ih]

theorem parseStrList_map_str (l : List String) : parseStrList (l.map PyVal.str) = some l :=
  parseAll_map PyVal.str _ (fun _ => rfl) l

theorem parseStrDict_map (l : List (String × String)) :
    parseStrDict (l.map (fun kv => (kv.1, PyVal.str kv.2))) = some l := by
  induction l with
  | nil => rfl
  | cons a tl ih => simp [parseStrDict, ih]

theorem inventory_dict_roundtrip (i : Inventory) :
    Inventory.from_dict (Inventory.to_dict i) = some i := by
  obtain ⟨its, g⟩ := i
  simp [Inventory.from_dict, Inventory.to_dict, dlookup, getInt, parseStrList_map_str]

theorem character_dict_roundtrip (c : Character) :
    Character.from_dict (Character.to_dict c) = some c := by
  obtain ⟨n, st, hp, xp, inv⟩ := c
  simp [Character.from_dict, Character.to_dict, dlookup, getStr, getInt,
    Stats.from_dict, Stats.to_dict, Inventory.from_dict, Inventory.to_dict,
    parseStrList_map_str]

theorem scene_dict_roundtrip (sc : Scene) : Scene.from_dict (Scene.to_dict sc) = some sc := by
  obtain ⟨i, t, ms, cs⟩ := sc
  simp [Scene.from_dict, Scene.to_dict, dlookup, getStr, parseStrList_map_str,
    parseStrDict_map]

theorem party_dict_roundtrip (p : Party) : Party.from_dict (Party.to_dict p) = some p := by
  simp [Party.from_dict, Party.to_dict, dlookup,
    parseAll_map Character.to_dict Character.from_dict character_dict_roundtrip]

theorem story_dict_roundtrip (st : StorySetup) :
    StorySetup.from_dict (StorySetup.to_dict st) = some st := by
  obtain ⟨sc⟩ := st
  simp [StorySetup.from_dict, StorySetup.to_dict, dlookup,
    parseAll_map Scene.to_dict Scene.from_dict scene_dict_roundtrip]

theorem rollN_ok (sides : Nat) (hs : 0 < sides) :
    ∀ (n : Nat) (s : Nat), ∃ vs s', rollN n (sides : Int) s = some (vs, s') ∧
      vs.length = n ∧ ∀ v ∈ vs, 1 ≤ v ∧ v ≤ (sides : Int) := by
  intro n
  induction n with
  | zero => exact fun s => ⟨[], s, rfl, rfl, by simp⟩
  | succ n ih =>
    intro s
    obtain ⟨vs, s', h1, h2, h3⟩ := ih (lcgNext s)
    have htn : (((sides : Int)) - 1 + 1).toNat = sides := by omega
    have hr : randint s 1 (sides : Int)
        = some (1 + ((s % sides : Nat) : Int), lcgNext s) := by
      unfold randint
      rw [if_neg (by omega)]
      rw [htn]
    refine ⟨(1 + ((s % sides : Nat) : Int)) :: vs, s', ?_, ?_, ?_⟩
    · simp [rollN, hr, h1]
    · simp [h2]
    · intro v hv
      rcases List.mem_cons.mp hv with hv | hv
      · subst hv
        have hm : s % sides < sides := Nat.mod_lt s hs
        constructor
        · omega
        · omega
      · exact h3 v hv

theorem fdiv_two_floor (a : Int) : Int.fdiv a 2 = ⌊(a : ℚ) / 2⌋ := by
  have he : Int.fdiv a 2 = a / 2 := Int.fdiv_eq_ediv a (by norm_num)
  have h1 : 2 * (a / 2) ≤ a := by omega
  have h2 : a < 2 * (a / 2) + 2 := by omega
  have h1q : 2 * ((a / 2 : ℤ) : ℚ) ≤ (a : ℚ) := by exact_mod_cast h1
  have h2q : ((a : ℚ)) < 2 * ((a / 2 : ℤ) : ℚ) + 2 := by exact_mod_cast h2
  rw [he]
  symm
  rw [Int.floor_eq_iff]
  constructor
  · linarith
  · linarith

/-! Claim theorems -/

/-- Claim C3 (confirmed): for every valid dice expression denoting count
`n`, sides `sides` and signed modifier `m`, with `n` and `sides` positive,
`roll` succeeds and returns exactly `n` individual rolls, each in
`[1, sides]`, with total equal to their sum plus the modifier. -/
theorem roll_valid_expression_ok (e : String) (n sides : Nat) (m : Int) (st : Nat)
    (hp : parseDice e = some (n, sides, m)) (_hn : 0 < n) (hs : 0 < sides) :
    RollOk n sides m (DiceRoller.roll e st).1 := by
  obtain ⟨vs, s', h1, h2, h3⟩ := rollN_ok sides hs n st
  simp only [DiceRoller.roll, hp, h1, RollOk]
  exact ⟨h2, h3, trivial⟩

/-- Witness for C3 at the concrete expression "2d6+3" and generator state 1. -/
theorem roll_valid_expression_ok_witness :
    RollOk 2 6 3 (DiceRoller.roll "2d6+3" 1).1 :=
  roll_valid_expression_ok "2d6+3" 2 6 3 1 rfl (by decide) (by decide)

/-- Claim C4, counterexample: the expression "0d6" does not satisfy the
claimed grammar (its count, 0, is not a positive integer), yet `roll` does
not fail on it: it succeeds with an empty roll list and total 0.  So `roll`
does NOT fail exactly on the inputs outside the positive-count grammar. -/
theorem roll_positive_grammar_counterexample :
    specDiceGrammar "0d6" = false ∧
    DiceRoller.roll "0d6" 37 = (Except.ok (0, []), 37) := ⟨rfl, rfl⟩

/-- Claim C4 (corrected): `roll` fails with the invalid-expression error
exactly when the input does not match the regex grammar
`<digits>d<digits>[<+|-><digits>]` (count and sides may be zero, whitespace
never matches), and such a failing call leaves the generator state
untouched.  An expression matching the grammar never produces the
invalid-expression error (a positive count with zero sides instead fails
with the distinct empty-range error, also leaving the state untouched,
covered by the last conjunct). -/
theorem roll_error_iff_no_parse (e : String) (st : Nat) :
    ((DiceRoller.roll e st).1 = Except.error RollError.invalidExpr ↔ parseDice e = none) ∧
    (parseDice e = none → DiceRoller.roll e st = (Except.error RollError.invalidExpr, st)) ∧
    ((DiceRoller.roll e st).1 = Except.error RollError.emptyRange →
      (DiceRoller.roll e st).2 = st) := by
  refine ⟨?_, ?_, ?_⟩
  · rcases hp : parseDice e with _ | ⟨⟨n, sides, m⟩⟩
    · simp [DiceRoller.roll, hp]
    · rcases hr : rollN n (sides : Int) st with _ | ⟨⟨vs, s'⟩⟩ <;>
        simp [DiceRoller.roll, hp, hr]
  · intro hno
    simp [DiceRoller.roll, hno]
  · intro h
    rcases hp : parseDice e with _ | ⟨⟨n, sides, m⟩⟩
    · simp [DiceRoller.roll, hp]
    · rcases hr : rollN n (sides : Int) st with _ | ⟨⟨vs, s'⟩⟩
      · simp [DiceRoller.roll, hp, hr]
      · simp [DiceRoller.roll, hp, hr] at h

/-- Witness for C4 at the concrete malformed expression "2x6" and state 5. -/
theorem roll_error_iff_no_parse_witness :
    DiceRoller.roll "2x6" 5 = (Except.error RollError.invalidExpr, 5) :=
  (roll_error_iff_no_parse "2x6" 5).2.1 rfl

/-- Claim C1 (code bug), evaluated at the failing input: a Director
immediately after `start` holds the empty party `Party([])`, which is a
FALSY Python list, so `from_dm`'s conditional expression serializes it as
the empty dict rather than as a dict with a `members` entry; applying the
resulting snapshot to any director then raises KeyError("members") inside
`Party.from_dict` instead of restoring an observably equivalent director. -/
theorem snapshot_roundtrip_empty_party_bug :
    (GameState.from_dm ((DM.init 0).start story1)).party = PyVal.dict [] ∧
    Party.from_dict (PyVal.dict []) = none ∧
    (GameState.from_dm ((DM.init 0).start story1)).apply_to_dm (DM.init 5) = none :=
  ⟨rfl, rfl, rfl⟩

/-- Claim C7, counterexample: a save document whose `current_scene_idx`
field is the string "three" is malformed (the spec's save-file interface
requires an integer there), yet loading it succeeds and produces a
Snapshot — field values are never validated.  So loading a malformed
document does not always fail with the format error. -/
theorem load_unvalidated_types_counterexample :
    Serializer.load (PyVal.dict [("party", PyVal.dict []), ("story_state", PyVal.dict []),
        ("current_scene_idx", PyVal.str "three"), ("rng_state", PyVal.int 7)])
      = some ⟨PyVal.dict [], PyVal.dict [], PyVal.str "three", PyVal.int 7⟩ := rfl

/-- Claim C7 (corrected): loading succeeds exactly on documents that are
objects carrying exactly the four required snapshot fields (any missing
required field — in particular `current_scene_idx`, as the second conjunct
shows at a concrete document — or any unknown field, or a non-object
document, fails with the format error); field values are not validated. -/
theorem load_wellkeyed_characterization :
    (∀ v : PyVal, (Serializer.load v).isSome = saveDocWellKeyed v) ∧
    Serializer.load (PyVal.dict [("party", PyVal.dict []), ("story_state", PyVal.dict []),
        ("rng_state", PyVal.int 0)]) = none := by
  constructor
  · intro v
    cases v with
    | dict kvs =>
      simp only [Serializer.load, GameState.from_dict, saveDocWellKeyed]
      cases hA : kvs.all (fun kv =>
          ["party", "story_state", "current_scene_idx", "rng_state"].contains kv.1) with
      | false =>
        rw [if_neg (by simp [hA]), Bool.and_false]
        rfl
      | true =>
        rw [if_pos (by simp [hA]), Bool.and_true]
        rcases h1 : dlookup "party" kvs with _ | p <;>
          rcases h2 : dlookup "story_state" kvs with _ | s <;>
            rcases h3 : dlookup "current_scene_idx" kvs with _ | i <;>
              rcases h4 : dlookup "rng_state" kvs with _ | r <;>
                simp [h1, h2, h3, h4]
    | str s => rfl
    | int i => rfl
    | list l => rfl
  · rfl

/-- Claim C8 (confirmed): both `Stats.modifier` and the standalone
`ability_modifier` (and its `Character.ability_mod` wrapper) compute the
exact mathematical floor of `(score - 10) / 2`, not a truncation toward
zero. -/
theorem ability_modifier_is_floor :
    (∀ (st : Stats) (s : Int), Stats.modifier st s = ⌊((s : ℚ) - 10) / 2⌋) ∧
    (∀ s : Int, Models.ability_modifier s = ⌊((s : ℚ) - 10) / 2⌋) ∧
    (∀ (c : Models.Character) (a : Models.Ability),
      Models.Character.ability_mod c a = ⌊((c.abilities a : ℚ) - 10) / 2⌋) := by
  have key : ∀ s : Int, Int.fdiv (s - 10) 2 = ⌊((s : ℚ) - 10) / 2⌋ := by
    intro s
    rw [fdiv_two_floor]
    congr 1
    push_cast
    ring
  exact ⟨fun _ s => key s, fun s => key s, fun c a => key (c.abilities a)⟩

theorem pyIndex_pos_some {α : Type} (xs : List α) (i : Int) (h0 : 0 ≤ i)
    (hlt : i < (xs.length : Int)) : ∃ a, pyIndex xs i = some a := by
  have hn : i.toNat < xs.length := by omega
  refine ⟨xs.get ⟨i.toNat, hn⟩, ?_⟩
  unfold pyIndex
  rw [if_pos ⟨h0, hlt⟩]
  exact List.get?_eq_get hn

theorem pyIndex_big_none {α : Type} (xs : List α) (i : Int)
    (hge : (xs.length : Int) ≤ i) : pyIndex xs i = none := by
  unfold pyIndex
  rw [if_neg (by omega), if_neg (by omega)]

theorem play_next_active (dm : DM) (story : StorySetup) (p : Party)
    (hst : dm.story = some story) (hp : dm.party = some p)
    (h0 : 0 ≤ dm.current_scene_idx)
    (hlt : dm.current_scene_idx < (story.scenes.length : Int)) :
    dm.play_next = (Except.ok (decide ((story.scenes.length : Int) ≤ dm.current_scene_idx + 1)),
      { dm with current_scene_idx := dm.current_scene_idx + 1 }) := by
  obtain ⟨sc, hsc⟩ := pyIndex_pos_some story.scenes dm.current_scene_idx h0 hlt
  simp only [DM.play_next, hst, hp, hsc]

theorem play_next_index_error (dm : DM) (story : StorySetup) (p : Party)
    (hst : dm.story = some story) (hp : dm.party = some p)
    (_h0 : 0 ≤ dm.current_scene_idx)
    (hge : (story.scenes.length : Int) ≤ dm.current_scene_idx) :
    dm.play_next = (Except.error PlayError.indexError, dm) := by
  have hnone : pyIndex story.scenes dm.current_scene_idx = none :=
    pyIndex_big_none _ _ hge
  simp only [DM.play_next, hst, hp, hnone]

theorem playIter_linear (story : StorySetup) :
    ∀ (k : Nat) (dm : DM) (p : Party), dm.story = some story → dm.party = some p →
      0 ≤ dm.current_scene_idx →
      dm.current_scene_idx + (k : Int) ≤ (story.scenes.length : Int) →
      playIter k dm = ({ dm with current_scene_idx := dm.current_scene_idx + (k : Int) },
        if dm.current_scene_idx + (k : Int) = (story.scenes.length : Int) ∧ 0 < k
        then 1 else 0) := by
  intro k
  induction k with
  | zero =>
    intro dm p h1 h2 h3 h4
    simp [playIter]
  | succ k ih =>
    intro dm p h1 h2 h3 h4
    have hlt : dm.current_scene_idx < (story.scenes.length : Int) := by
      push_cast at h4
      omega
    have ihr := ih { dm with current_scene_idx := dm.current_scene_idx + 1 } p h1 h2
      (by simp; omega) (by simp; push_cast at h4 ⊢; omega)
    have hidx2 : dm.current_scene_idx + 1 + (k : Int)
        = dm.current_scene_idx + ((k + 1 : Nat) : Int) := by
      push_cast
      ring
    simp only [playIter]
    rw [play_next_active dm story p h1 h2 h3 hlt]
    simp only at ihr
    rw [hidx2] at ihr
    rw [ihr]
    simp only [Prod.mk.injEq, true_and]
    by_cases hw : (story.scenes.length : Int) ≤ dm.current_scene_idx + 1
    · have hk0 : k = 0 := by push_cast at h4; omega
      subst hk0
      have heq : dm.current_scene_idx + 1 = (story.scenes.length : Int) := by
        push_cast at h4
        omega
      simp [hw, heq]
    · by_cases he : dm.current_scene_idx + ((k + 1 : Nat) : Int) = (story.scenes.length : Int)
      · push_cast at he
        have hkpos : 0 < k := by omega
        simp [hw, he, hkpos]
      · push_cast at he
        simp [hw, he]

theorem playIter_state_bounds (story : StorySetup) :
    ∀ (k : Nat) (dm : DM), dm.story = some story → dm.party.isSome = true →
      0 ≤ dm.current_scene_idx → dm.current_scene_idx ≤ (story.scenes.length : Int) →
      (playIter k dm).1.story = some story ∧ (playIter k dm).1.party.isSome = true ∧
      0 ≤ (playIter k dm).1.current_scene_idx ∧
      (playIter k dm).1.current_scene_idx ≤ (story.scenes.length : Int) := by
  intro k
  induction k with
  | zero =>
    intro dm h1 h2 h3 h4
    exact ⟨h1, h2, h3, h4⟩
  | succ k ih =>
    intro dm h1 h2 h3 h4
    obtain ⟨p, hp⟩ := Option.isSome_iff_exists.mp h2
    by_cases hlt : dm.current_scene_idx < (story.scenes.length : Int)
    · have hstep := play_next_active dm story p h1 hp h3 hlt
      have ihr := ih { dm with current_scene_idx := dm.current_scene_idx + 1 } h1
        (by simpa using h2) (by simp; omega) (by simp; omega)
      simp only [playIter, hstep]
      simpa using ihr
    · have hge : (story.scenes.length : Int) ≤ dm.current_scene_idx := by omega
      have hstep := play_next_index_error dm story p h1 hp h3 hge
      have ihr := ih dm h1 h2 h3 h4
      simp only [playIter, hstep]
      simpa using ihr

/-- Claim C2, counterexample: with a zero-scene story graph, a freshly
started Director is already at cursor = scene count (the Complete shape)
after exactly N = 0 calls, yet the win behavior has fired zero times, not
exactly once. -/
theorem play_empty_story_counterexample :
    (playIter (StorySetup.mk []).scenes.length ((DM.init 0).start (StorySetup.mk []))).1.current_scene_idx
        = ((StorySetup.mk []).scenes.length : Int) ∧
    (playIter (StorySetup.mk []).scenes.length ((DM.init 0).start (StorySetup.mk []))).2 ≠ 1 := by
  refine ⟨rfl, ?_⟩
  decide

/-- Claim C2 (corrected, restricted to story graphs with at least one
scene): one `play_next` call on an Active director at cursor `i` with
`0 ≤ i < N` increments the cursor by exactly 1 — the result does not depend
on any scene's `choices` map — and wins exactly when the new cursor reaches
`N`; from a fresh start, after exactly `N` calls the cursor equals `N` and
the win behavior has fired exactly once, and after any `k < N` calls it has
fired zero times. -/
theorem play_next_linear_and_win (dm0 : DM) (story : StorySetup) (dm : DM) (p : Party)
    (i : Int) (k : Nat)
    (hN : 1 ≤ story.scenes.length)
    (hst : dm.story = some story) (hp : dm.party = some p)
    (hi : dm.current_scene_idx = i) (h0 : 0 ≤ i) (hlt : i < (story.scenes.length : Int))
    (hk : k < story.scenes.length) :
    dm.play_next = (Except.ok (decide ((story.scenes.length : Int) ≤ i + 1)),
        { dm with current_scene_idx := i + 1 }) ∧
    playIter story.scenes.length (dm0.start story)
      = ({ dm0.start story with current_scene_idx := (story.scenes.length : Int) }, 1) ∧
    playIter k (dm0.start story)
      = ({ dm0.start story with current_scene_idx := (k : Int) }, 0) := by
  subst hi
  refine ⟨play_next_active dm story p hst hp h0 hlt, ?_, ?_⟩
  · have h := playIter_linear story story.scenes.length (dm0.start story) [] rfl rfl
      (by simp [DM.start]) (by simp [DM.start])
    have hpos : 0 < story.scenes.length := hN
    simpa [DM.start, hpos] using h
  · have h := playIter_linear story k (dm0.start story) [] rfl rfl
      (by simp [DM.start]) (by simp [DM.start]; omega)
    have hkne : k ≠ story.scenes.length := Nat.ne_of_lt hk
    simpa [DM.start, hkne] using h

/-- Witness for C2 on the three-scene demo campaign: one call at cursor 1,
three calls complete with one win, two calls give no win. -/
theorem play_next_linear_and_win_witness :
    dmMid.play_next = (Except.ok (decide ((story3.scenes.length : Int) ≤ 1 + 1)),
        { dmMid with current_scene_idx := 1 + 1 }) ∧
    playIter story3.scenes.length ((DM.init 0).start story3)
      = ({ (DM.init 0).start story3 with current_scene_idx := (story3.scenes.length : Int) }, 1) ∧
    playIter 2 ((DM.init 0).start story3)
      = ({ (DM.init 0).start story3 with current_scene_idx := ((2 : Nat) : Int) }, 0) :=
  play_next_linear_and_win (DM.init 0) story3 dmMid [] 1 2 (by decide) rfl rfl rfl
    (by decide) (by decide) (by decide)

/-- Claim C5, counterexample: a Director on which `start` has never been
called carries cursor -1, so the snapshot `from_dm` builds violates the
claimed invariant `0 <= current_scene_idx <= len(scenes)`. -/
theorem snapshot_invariant_fresh_counterexample :
    (GameState.from_dm (DM.init 0)).current_scene_idx = PyVal.int (-1) ∧
    GameState.cursorInvariant (GameState.from_dm (DM.init 0)) = false :=
  ⟨rfl, rfl⟩

/-- Claim C5 (corrected, restricted to started Directors): every snapshot
taken from a Director reached by `start` followed by any number of
`play_next` calls satisfies `0 <= current_scene_idx <= len(scenes)` of its
story state.  (A fresh, unstarted Director violates it with cursor -1.) -/
theorem snapshot_invariant_after_start (dm0 : DM) (story : StorySetup) (k : Nat) :
    GameState.cursorInvariant (GameState.from_dm (playIter k (dm0.start story)).1) = true := by
  obtain ⟨hst, hpa, hge, hle⟩ := playIter_state_bounds story k (dm0.start story) rfl rfl
    (by simp [DM.start]) (by simp [DM.start])
  simp [GameState.cursorInvariant, GameState.from_dm, hst, storyLen, StorySetup.to_dict,
    dlookup, hge, hle]

/-- Claim C6, counterexample: a Director that has completed its (one-scene)
campaign is no longer Active, yet a further `play_next` fails with the
index error, not with the NotStarted error. -/
theorem play_next_complete_not_notstarted_counterexample :
    dmDone.current_scene_idx = (story1.scenes.length : Int) ∧
    dmDone.play_next = (Except.error PlayError.indexError, dmDone) ∧
    PlayError.indexError ≠ PlayError.notStarted := by
  refine ⟨rfl, rfl, ?_⟩
  decide

/-- Claim C6 (corrected, restricted to unstarted Directors): calling
`play_next` on a Director whose story or party is unset (start never
called) fails with the NotStarted error and leaves the Director — party,
story, cursor and dice state — unchanged, and the win behavior is not
invoked.  (A started-but-Complete Director instead fails with the index
error, per the counterexample.) -/
theorem play_next_not_started_error (dm : DM)
    (h : dm.story = none ∨ dm.party = none) :
    dm.play_next = (Except.error PlayError.notStarted, dm) := by
  rcases h with h | h
  · rcases hp : dm.party with _ | p <;> simp only [DM.play_next, h, hp]
  · rcases hs : dm.story with _ | s <;> simp only [DM.play_next, h, hs]

/-- Witness for C6 on a fresh Director. -/
theorem play_next_not_started_error_witness :
    (DM.init 0).play_next = (Except.error PlayError.notStarted, DM.init 0) :=
  play_next_not_started_error (DM.init 0) (Or.inl rfl)

/-- Claim C10 (confirmed): on a Director in the Complete state (cursor
equal to the non-zero scene count) a further `play_next` fails at the scene
lookup with the index error before any mutation: the Director — in
particular its cursor — is returned unchanged and the win behavior is not
invoked (the result is an error, not a win). -/
theorem play_next_complete_index_error (dm : DM) (story : StorySetup) (p : Party)
    (hst : dm.story = some story) (hp : dm.party = some p)
    (hidx : dm.current_scene_idx = (story.scenes.length : Int))
    (hpos : 0 < story.scenes.length) :
    dm.play_next = (Except.error PlayError.indexError, dm) :=
  play_next_index_error dm story p hst hp (by omega) (by omega)

/-- Witness for C10 on the completed one-scene demo Director. -/
theorem play_next_complete_index_error_witness :
    dmDone.play_next = (Except.error PlayError.indexError, dmDone) :=
  play_next_complete_index_error dmDone story1 [] rfl rfl (by decide) (by decide)

/-- Claim C9 (confirmed): a models/character.py Character constructed with
`level < 1` fails, and for a successfully constructed one, after any finite
number of `level_up` calls the derived `proficiency_bonus` equals
`2 + (level - 1) // 4` — established by `__post_init__` and re-established
by every `level_up`. -/
theorem proficiency_bonus_invariant (name race cc : String) (level : Int)
    (ab : Models.Ability → Int) (mhp : Option Int) (c : Models.Character) (k : Nat)
    (lbad : Int) (hbad : lbad < 1)
    (hc : Models.Character.mkChecked name race cc level ab mhp = some c) :
    ((Models.Character.level_up)^[k] c).proficiency_bonus
        = 2 + Int.fdiv (((Models.Character.level_up)^[k] c).level - 1) 4 ∧
    Models.Character.mkChecked name race cc lbad ab mhp = none := by
  constructor
  · have hinv : c.proficiency_bonus = 2 + Int.fdiv (c.level - 1) 4 := by
      by_cases hl : level < 1
      · simp [Models.Character.mkChecked, hl] at hc
      · simp [Models.Character.mkChecked, hl,
          Models.Character.sync_proficiency_bonus] at hc
        rw [← hc]
    induction k with
    | zero => simpa using hinv
    | succ k ih =>
      rw [Function.iterate_succ_apply']
      simp [Models.Character.level_up, Models.Character.sync_proficiency_bonus]
  · simp [Models.Character.mkChecked, hbad]

/-- Witness for C9: the demo rogue at level 1, levelled up five times, and
a rejected construction at level 0. -/
theorem proficiency_bonus_invariant_witness :
    ((Models.Character.level_up)^[5]
        ⟨"Lyra", "Elf", "Rogue", 1, fun _ => 10, none, 2⟩).proficiency_bonus
      = 2 + Int.fdiv ((((Models.Character.level_up)^[5]
        ⟨"Lyra", "Elf", "Rogue", 1, fun _ => 10, none, 2⟩ : Models.Character)).level - 1) 4 ∧
    Models.Character.mkChecked "Lyra" "Elf" "Rogue" 0 (fun _ => 10) none = none :=
  proficiency_bonus_invariant "Lyra" "Elf" "Rogue" 1 (fun _ => 10) none
    ⟨"Lyra", "Elf", "Rogue", 1, fun _ => 10, none, 2⟩ 5 0 (by decide) rfl
